import Mathlib

set_option maxHeartbeats 1000000

/-!
Shallow embedding of parts of the Sentry repository, together with proofs
about them.  Pure fragments of the Python source are translated into Lean
functions; Django/REST side effects (database rows, audit entries, HTTP
responses) are made explicit as values.  Python integers are `Int`
(arbitrary precision, two's-complement bitwise semantics, matching
`Int.land`/`Int.lor`/`Int.lnot`), Python lists are `List`, and fallible
constructors return `Except`.
-/

namespace Sentry

/-! ### `src/bitfield/models.py` -/

/-- Django `BigIntegerField.MAX_BIGINT`: the largest signed 64-bit integer,
`2 ^ 63 - 1`. -/
def MAX_BIGINT : Nat := 9223372036854775807

/-- Python `bin(n)`: the characters `"0b"` followed by the binary digits of
`n`. -/
def pythonBin (n : Nat) : List Char := '0' :: 'b' :: Nat.toDigits 2 n

/-- Definition `MAX_FLAG_COUNT = int(len(bin(BigIntegerField.MAX_BIGINT)) - 2)` from
`src/bitfield/models.py`. -/
def MAX_FLAG_COUNT : Nat := (pythonBin MAX_BIGINT).length - 2

/-- Modelled from the spec: `bitfield/types.py` (`Bit`) is not under `src/`;
the spec describes the bitfield as "a compact integer-packed boolean-set
abstraction" in which the flag at index `i` is stored in bit `i`, so
`Bit(number)` denotes the single set bit `2 ** number`. -/
structure Bit where
  number : Nat
deriving DecidableEq

/-- The integer mask `2 ** number` carried by a `Bit`. -/
def Bit.mask (b : Bit) : Nat := 2 ^ b.number

/-- Modelled from the spec: `bitfield/types.py` (`BitHandler`) is not under
`src/`; it wraps the packed integer value together with the flag names
(`_keys`) and labels of the field. -/
structure BitHandler where
  mask : Int
  _keys : List String
  labels : List String
deriving DecidableEq

/-- Embeds `BitFieldFlags.__init__` (`src/bitfield/models.py`): stores the flag
sequence, but raises `ValueError("Too many flags")` when there are more than
`MAX_FLAG_COUNT` flags. -/
def BitFieldFlags.init (flags : List String) : Except String (List String) :=
  if flags.length > MAX_FLAG_COUNT then Except.error "Too many flags"
  else Except.ok flags

/-- One entry of the `flags` sequence given to `BitField.__init__`: either a
plain flag name or a `(flag, label)` pair. -/
inductive FlagEntry
  | plain (name : String)
  | pair (name label : String)
deriving DecidableEq

/-- The flag name of an entry (`flag[0]` for pairs, the entry itself
otherwise). -/
def FlagEntry.flagName : FlagEntry → String
  | .plain n => n
  | .pair n _ => n

/-- The label of an entry (`flag[1]` for pairs, the entry itself
otherwise). -/
def FlagEntry.flagLabel : FlagEntry → String
  | .plain n => n
  | .pair _ l => l

/-- Python `list.index(x)`: the first index of `x`, raising
`ValueError("'x' is not in list")` when `x` does not occur. -/
def listIndex (xs : List String) (x : String) : Except String Nat :=
  match xs.findIdx? (fun y => y == x) with
  | some i => Except.ok i
  | none => Except.error (x ++ " is not in list")

/-- The `default` argument of `BitField.__init__`: `None`, an integer, or a
collection (list/tuple/set/frozenset) of flag names. -/
inductive BitFieldDefault
  | noneVal
  | intVal (n : Int)
  | coll (members : List String)

/-- The data computed by `BitField.__init__`: the original argument, the
flattened flag names, the labels, and the integer (or absent) default handed
to `BigIntegerField.__init__`. -/
structure BitFieldData where
  _arg_flags : List FlagEntry
  flags : List String
  labels : List String
  default : Option Int
deriving DecidableEq

/-- The loop `for flag in default: new_value |= Bit(flags.index(flag))` of
`BitField.__init__`, starting from accumulator `acc` (the code starts from
`new_value = 0`). -/
def packDefault (names : List String) : List String → Int → Except String Int
  | [], acc => Except.ok acc
  | f :: rest, acc =>
    match listIndex names f with
    | Except.error e => Except.error e
    | Except.ok i => packDefault names rest (Int.lor acc (Int.ofNat (Bit.mask ⟨i⟩)))

/-- Embeds `BitField.__init__` (`src/bitfield/models.py`) on a flags sequence:
checks the flag count, flattens `(flag, label)` pairs, and converts a
collection default into the packed integer default. -/
def BitField.init (flags : List FlagEntry) (default : BitFieldDefault) :
    Except String BitFieldData :=
  if flags.length > MAX_FLAG_COUNT then Except.error "Too many flags"
  else
    let names := flags.map FlagEntry.flagName
    let labels := flags.map FlagEntry.flagLabel
    match default with
    | .noneVal => Except.ok ⟨flags, names, labels, none⟩
    | .intVal n => Except.ok ⟨flags, names, labels, some n⟩
    | .coll ds =>
      match packDefault names ds 0 with
      | Except.error e => Except.error e
      | Except.ok v => Except.ok ⟨flags, names, labels, some v⟩

/-- The negative-value regression fix of `BitField.to_python`:
`new_value |= value & (2 ** bit_number)` over `bit_number` ranging over the
positions of the field's flags. -/
def bitfieldFix (flags : List String) (value : Int) : Int :=
  (List.range flags.length).foldl
    (fun acc b => Int.lor acc (Int.land value ((2 : Int) ^ b))) 0

/-- A value passed to `BitField.to_python`: a `Bit`, a `BitHandler`, or an
integer. -/
inductive BitFieldValue
  | bit (b : Bit)
  | handler (h : BitHandler)
  | intVal (n : Int)

/-- The integer branch of `BitField.to_python`: negative values are repaired
by `bitfieldFix` before being wrapped in a `BitHandler`. -/
def BitField.toPythonInt (field : BitFieldData) (n : Int) : BitHandler :=
  BitHandler.mk (if n < 0 then bitfieldFix field.flags n else n)
    field.flags field.labels

/-- Embeds `BitField.to_python` (`src/bitfield/models.py`). -/
def BitField.to_python (field : BitFieldData) (value : BitFieldValue) : BitHandler :=
  match value with
  | .handler h => { h with _keys := field.flags }
  | .bit b => BitField.toPythonInt field (Int.ofNat b.mask)
  | .intVal n => BitField.toPythonInt field n

/-! ### `src/src/sentry/api/endpoints/project_filter_details.py` -/

/-- A Python value that can end up in `returned_state` of
`ProjectFilterDetailsEndpoint.put`: `None`, a bool, a string, a set of
strings (modelled as a list), or a list of strings. -/
inductive PyValue
  | pynone
  | pybool (b : Bool)
  | pystr (s : String)
  | pyset (s : List String)
  | pylist (s : List String)
deriving DecidableEq

/-- A filter state as returned by `inbound_filters.get_filter_state` /
`set_filter_state` (modelled from the spec: the `inbound_filters` module is
not under `src/`): a boolean for simple filters, or a list of subfilter
names for `legacy-browsers`. -/
inductive RawState
  | rbool (b : Bool)
  | rlist (l : List String)
deriving DecidableEq

/-- A filter state after the endpoint's
`if isinstance(state, list): state = set(state)` conversion. -/
inductive PyState
  | pybool (b : Bool)
  | pyset (s : List String)
deriving DecidableEq

/-- The `isinstance(state, list)`-to-`set` conversion applied by the
endpoint to both the current and the new state. -/
def toPyState : RawState → PyState
  | .rbool b => .pybool b
  | .rlist l => .pyset l

/-- The result of a Python subtraction `current_state - new_state`: an
integer for `bool - bool`, a set difference for `set - set`. -/
inductive PyDiff
  | int (n : Int)
  | set (s : List String)
deriving DecidableEq

/-- Python `int(b)` for a bool. -/
def boolToInt (b : Bool) : Int := if b then 1 else 0

/-- Python `a - b` on two filter states: `bool - bool` is integer
subtraction, `set - set` is set difference; mixing a bool with a set raises
`TypeError` (`none`). -/
def pySub : PyState → PyState → Option PyDiff
  | .pybool a, .pybool b => some (.int (boolToInt a - boolToInt b))
  | .pyset a, .pyset b => some (.set (a.filter (fun x => !b.contains x)))
  | _, _ => none

/-- Python truthiness test `not state` for a filter state: `False` and the
empty set are falsy. -/
def pyStateNot : PyState → Bool
  | .pybool b => !b
  | .pyset s => s.isEmpty

/-- Python set equality of the two state sets. -/
def pySetEq (a b : List String) : Bool :=
  a.all (fun x => b.contains x) && b.all (fun x => a.contains x)

/-- A filter state as a Python value (for `returned_state`). -/
def PyState.toValue : PyState → PyValue
  | .pybool b => .pybool b
  | .pyset s => .pyset s

/-- The endpoint's final `if isinstance(returned_state, Iterable):
returned_state = list(returned_state)`.  Strings are iterable in Python, so
a string becomes the list of its one-character strings. -/
def pyIterToList : PyValue → PyValue
  | .pynone => .pynone
  | .pybool b => .pybool b
  | .pystr s => .pylist (s.data.map Char.toString)
  | .pyset s => .pylist s
  | .pylist s => .pylist s

/-- An audit-log entry created by `create_audit_entry`: the event id and the
`data={"state": returned_state}` payload. -/
structure AuditEntry where
  event : String
  state : PyValue
deriving DecidableEq

/-- A registered inbound filter spec (modelled from the spec: the
`inbound_filters` module is not under `src/`): its id, its serializer
(`none` when `is_valid()` fails, otherwise the `validated_data`), and its
serializer errors. -/
structure FilterSpec (Data : Type) where
  id : String
  validate : Data → Option Data
  errors : Data → String

/-- An exception escaping `ProjectFilterDetailsEndpoint.put`. -/
inductive PutErr
  | resourceDoesNotExist
  | typeErr
deriving DecidableEq

/-- The observable outcome of a non-raising run of
`ProjectFilterDetailsEndpoint.put`: HTTP status, serializer errors body (for
400), whether `set_filter_state` was called, and the audit entry created. -/
structure PutResult where
  status : Nat
  errorsBody : Option String
  setCalled : Bool
  audit : Option AuditEntry
deriving DecidableEq

/-- The three boolean filters special-cased by the endpoint. -/
def threeFilterIds : List String := ["browser-extensions", "localhost", "web-crawlers"]

/-- The `audit_log_state` / `returned_state` computation of
`ProjectFilterDetailsEndpoint.put`, after `set_filter_state` has produced
`newState` from current state `cur`: the `legacy-browsers` branch followed
by the branch for the three boolean filters.  The initial audit event is
`PROJECT_ENABLE` and the initial `returned_state` is `None`. -/
def computeAudit (filter_id : String) (cur newState : PyState) :
    Except PutErr (String × PyValue) :=
  let ev := "PROJECT_ENABLE"
  let ret := PyValue.pynone
  let legacyStep : String × PyValue :=
    if filter_id == "legacy-browsers" then
      match cur, newState with
      | .pybool _, _ =>
        (if pyStateNot newState then "PROJECT_DISABLE" else ev, newState.toValue)
      | _, .pybool _ =>
        (if pyStateNot newState then "PROJECT_DISABLE" else ev, newState.toValue)
      | .pyset a, .pyset b =>
        let removed := a.filter (fun x => !b.contains x)
        let added := b.filter (fun x => !a.contains x)
        if !removed.isEmpty then ("PROJECT_DISABLE", .pyset removed)
        else if !added.isEmpty then (ev, .pyset added)
        else if pySetEq b a then (ev, .pyset b)
        else (ev, ret)
    else (ev, ret)
  if filter_id ∈ threeFilterIds then
    match pySub cur newState with
    | none => Except.error PutErr.typeErr
    | some removed =>
      Except.ok
        (if removed = PyDiff.int 1 then "PROJECT_DISABLE" else legacyStep.1,
          PyValue.pystr filter_id)
  else Except.ok legacyStep

/-- Embeds `ProjectFilterDetailsEndpoint.put`
(`src/src/sentry/api/endpoints/project_filter_details.py`): find the filter
spec, validate the request data, update the filter state, compute the audit
event and returned state, create the audit entry, and answer 201.
`set_filter_state` is modelled as the function `sfs` from the validated data
to the new raw state (the `inbound_filters` module is not under `src/`). -/
def projectFilterPut (Data : Type) (specs : List (FilterSpec Data))
    (filter_id : String) (data : Data) (currentRaw : RawState)
    (sfs : Data → RawState) : Except PutErr PutResult :=
  match specs.find? (fun s => s.id == filter_id) with
  | none => Except.error PutErr.resourceDoesNotExist
  | some flt =>
    match flt.validate data with
    | none => Except.ok ⟨400, some (flt.errors data), false, none⟩
    | some validated =>
      let cur := toPyState currentRaw
      let newState := toPyState (sfs validated)
      match computeAudit filter_id cur newState with
      | Except.error e => Except.error e
      | Except.ok (ev, ret) =>
        Except.ok ⟨201, none, true, some ⟨ev, pyIterToList ret⟩⟩

/-- The packed integer described by the C2 claim: the bitwise OR of `2 ^ i`
over the indices `i` at which the members of the default collection occur in
the flag-name list. -/
def specPackedDefault (names : List String) (ds : List String) : Int :=
  ds.foldl (fun acc f => Int.lor acc ((2 : Int) ^ names.findIdx (fun y => y == f))) 0

/-! ### `src/src/sentry/tasks/integrations/github/pr_comment.py` -/

/-- The `PullRequestIssue` dataclass. -/
structure PullRequestIssue where
  title : String
  subtitle : String
  url : String
deriving DecidableEq

/-- The inner `format_subtitle` of `format_comment`:
`subtitle[:47] + "..." if len(subtitle) > 50 else subtitle`. -/
def format_subtitle (subtitle : String) : String :=
  if subtitle.length > 50 then subtitle.take 47 ++ "..." else subtitle

/-- Template `SINGLE_ISSUE_TEMPLATE` instantiated at one issue (Python `str.format`
on a constant template is concatenation of the literal segments with the
field values). -/
def singleIssueLine (issue : PullRequestIssue) : String :=
  "- ‼️ **" ++ issue.title ++ "** `" ++ format_subtitle issue.subtitle ++
    "` [View Issue](" ++ issue.url ++ ")"

/-- The part of `COMMENT_BODY_TEMPLATE` before the `issue_list` field. -/
def commentBodyHead : String :=
  "## Suspect Issues\nThis pull request has been deployed and Sentry has observed the following issues:\n\n"

/-- The part of `COMMENT_BODY_TEMPLATE` after the `issue_list` field. -/
def commentBodyTail : String :=
  "\n\nHave questions? Reach out to us in the #proj-github-pr-comments channel.\n\n<sub>Did you find this useful? React with a 👍 or 👎</sub>"

/-- Embeds `format_comment`: one line per issue, joined with `"\n"` and substituted
into `COMMENT_BODY_TEMPLATE`. -/
def format_comment (issues : List PullRequestIssue) : String :=
  commentBodyHead ++ String.intercalate "\n" (issues.map singleIssueLine) ++
    commentBodyTail

/-- The claim's reading of the comment body: the fixed template around the
bullet lines of the issues, one per issue, in input order, each obtained
from the single-issue template. -/
def issueBullets : List PullRequestIssue → String
  | [] => ""
  | [issue] => singleIssueLine issue
  | issue :: rest => singleIssueLine issue ++ "\n" ++ issueBullets rest

/-- The claim's reading of `format_comment` as a whole. -/
def formatCommentSpec (issues : List PullRequestIssue) : String :=
  commentBodyHead ++ issueBullets issues ++ commentBodyTail

/-! ### `src/src/sentry/integrations/gitlab/integration.py` -/

/-- Embeds `GitlabIntegration.error_message_from_json`: a Python dict is modelled
as an association list with distinct keys; `k in data` tests key membership
and `data[k]` is the association. -/
def error_message_from_json {V : Type} (data : List (String × V)) : Option V :=
  if data.any (fun p => p.1 == "message") then data.lookup "message"
  else if data.any (fun p => p.1 == "error") then data.lookup "error"
  else none

/-- Modelled from the spec: `urlparse(...).netloc` (Python stdlib, not under
`src/`): the host part of the URL, between the `"://"` of the scheme and the
next `"/"`. -/
def urlNetloc (url : String) : String :=
  match url.splitOn "://" with
  | _ :: rest :: _ => (rest.splitOn "/").headD ""
  | _ => ""

/-- The UTF-8 bytes of one character (bytes are naturals below 256). -/
def utf8Char (c : Char) : List Nat :=
  let n := c.toNat
  if n < 0x80 then [n]
  else if n < 0x800 then
    [0xC0 + n / 0x40, 0x80 + n % 0x40]
  else if n < 0x10000 then
    [0xE0 + n / 0x1000, 0x80 + n / 0x40 % 0x40, 0x80 + n % 0x40]
  else
    [0xF0 + n / 0x40000, 0x80 + n / 0x1000 % 0x40, 0x80 + n / 0x40 % 0x40,
      0x80 + n % 0x40]

/-- UTF-8 encoding of a string as a list of bytes (Python
`text.encode("utf-8")`). -/
def utf8Encode (s : String) : List Nat := s.data.flatMap utf8Char

/-- Truncation to 32 bits. -/
def w32 (n : Nat) : Nat := n % 2 ^ 32

/-- Left rotation of a 32-bit word by `k`. -/
def rotl32 (k n : Nat) : Nat := w32 (n * 2 ^ k) ||| n / 2 ^ (32 - k)

/-- The SHA-1 state: the five 32-bit words `h0 .. h4`. -/
structure Sha1State where
  h0 : Nat
  h1 : Nat
  h2 : Nat
  h3 : Nat
  h4 : Nat

/-- SHA-1 message schedule: the 80 32-bit words expanded from one 64-byte
block. -/
def sha1Schedule (block : List Nat) : List Nat :=
  let w0 := (List.range 16).map (fun i =>
    (block.getD (4 * i) 0) * 0x1000000 + (block.getD (4 * i + 1) 0) * 0x10000 +
      (block.getD (4 * i + 2) 0) * 0x100 + block.getD (4 * i + 3) 0)
  (List.range 64).foldl
    (fun w t =>
      w ++ [rotl32 1 ((w.getD (t + 13) 0) ^^^ (w.getD (t + 8) 0) ^^^
        (w.getD (t + 2) 0) ^^^ (w.getD t 0))])
    w0

/-- One SHA-1 round. -/
def sha1Round (t : Nat) (wt : Nat) : Nat × Nat × Nat × Nat × Nat → Nat × Nat × Nat × Nat × Nat :=
  fun (a, b, c, d, e) =>
    let f :=
      if t < 20 then (b &&& c) ||| ((2 ^ 32 - 1 - b) &&& d)
      else if t < 40 then b ^^^ c ^^^ d
      else if t < 60 then (b &&& c) ||| (b &&& d) ||| (c &&& d)
      else b ^^^ c ^^^ d
    let k :=
      if t < 20 then 0x5A827999
      else if t < 40 then 0x6ED9EBA1
      else if t < 60 then 0x8F1BBCDC
      else 0xCA62C1D6
    let temp := w32 (rotl32 5 a + f + e + k + wt)
    (temp, a, rotl32 30 b, c, d)

/-- Compression of one 64-byte block into the SHA-1 state. -/
def sha1Block (st : Sha1State) (block : List Nat) : Sha1State :=
  let w := sha1Schedule block
  let (a, b, c, d, e) :=
    (List.range 80).foldl (fun s t => sha1Round t (w.getD t 0) s)
      (st.h0, st.h1, st.h2, st.h3, st.h4)
  ⟨w32 (st.h0 + a), w32 (st.h1 + b), w32 (st.h2 + c), w32 (st.h3 + d),
    w32 (st.h4 + e)⟩

/-- SHA-1 padding: append `0x80`, zero bytes to 56 mod 64, and the 8-byte
big-endian bit length. -/
def sha1Pad (msg : List Nat) : List Nat :=
  let bitLen := 8 * msg.length
  let padZeros := (64 + 56 - (msg.length + 1) % 64) % 64
  msg ++ [0x80] ++ List.replicate padZeros 0 ++
    (List.range 8).map (fun i => bitLen / 2 ^ (8 * (7 - i)) % 256)

/-- The SHA-1 digest of a byte sequence, as the list of its 20 bytes. -/
def sha1Bytes (msg : List Nat) : List Nat :=
  let padded := sha1Pad msg
  let nBlocks := padded.length / 64
  let final := (List.range nBlocks).foldl
    (fun st i => sha1Block st ((padded.drop (64 * i)).take 64))
    ⟨0x67452301, 0xEFCDAB89, 0x98BADCFE, 0x10325476, 0xC3D2E1F0⟩
  ((List.range 4).map (fun i => final.h0 / 2 ^ (8 * (3 - i)) % 256)) ++
    ((List.range 4).map (fun i => final.h1 / 2 ^ (8 * (3 - i)) % 256)) ++
    ((List.range 4).map (fun i => final.h2 / 2 ^ (8 * (3 - i)) % 256)) ++
    ((List.range 4).map (fun i => final.h3 / 2 ^ (8 * (3 - i)) % 256)) ++
    ((List.range 4).map (fun i => final.h4 / 2 ^ (8 * (3 - i)) % 256))

/-- Lowercase hex rendering of a byte list. -/
def bytesToHex (bs : List Nat) : String :=
  String.mk (bs.flatMap (fun b => [Nat.digitChar (b / 16), Nat.digitChar (b % 16)]))

/-- Modelled from the spec: `sentry.utils.hashlib.sha1_text(...).hexdigest()`
is not under `src/`; it is the SHA-1 hex digest of the UTF-8 encoding of the
text. -/
def sha1TextHexdigest (text : String) : String :=
  bytesToHex (sha1Bytes (utf8Encode text))

/-- The `installation_data` part of the state consumed by
`GitlabIntegrationProvider.build_integration`. -/
structure GitlabInstallationData where
  url : String
  client_id : String
  verify_ssl : Bool
  groupPath : Option String
  include_subgroups : Bool
deriving DecidableEq

/-- The state consumed by `GitlabIntegrationProvider.build_integration`:
the installation data plus the per-install OAuth payload (access token) and
the resolved group/user info from the GitLab API. -/
structure GitlabState where
  installation_data : GitlabInstallationData
  access_token : String
  groupId : Option Nat
  groupFullName : Option String
  userId : Nat
deriving DecidableEq

/-- The metadata dict built by
`GitlabIntegrationProvider.build_integration`. -/
structure GitlabIntegrationMetadata where
  instance_ : String
  base_url : String
  verify_ssl : Bool
  webhook_secret : String
  include_subgroups : Bool
deriving DecidableEq

/-- The integration dict built by
`GitlabIntegrationProvider.build_integration`. -/
structure GitlabIntegrationData where
  name : String
  external_id : String
  metadata : GitlabIntegrationMetadata
deriving DecidableEq

/-- Embeds `GitlabIntegrationProvider.build_integration`
(`src/src/sentry/integrations/gitlab/integration.py`), restricted to the
fields the embedding tracks.  The webhook secret is
`sha1_text("".join([hostname, state["installation_data"]["client_id"]]))`. -/
def build_integration (state : GitlabState) : GitlabIntegrationData :=
  let hasGroup := state.installation_data.groupPath.isSome
  let base_url := state.installation_data.url
  let hostname := urlNetloc base_url
  let secret := sha1TextHexdigest (hostname ++ state.installation_data.client_id)
  { name := (if hasGroup then state.groupFullName else none).getD hostname
    external_id := hostname ++ ":" ++
      (match (if hasGroup then state.groupId else none) with
       | some gid => toString gid
       | none => "_instance_")
    metadata :=
      { instance_ := hostname
        base_url := base_url
        verify_ssl := state.installation_data.verify_ssl
        webhook_secret := secret
        include_subgroups :=
          if hasGroup then state.installation_data.include_subgroups else false } }

/-! ### `src/src/sentry/web/frontend/organization_auth_settings.py` -/

/-- An `OrganizationMember` row, restricted to the fields the `flags` update
touches. -/
structure OrgMember where
  id : Nat
  organization_id : Nat
  flags : Int
deriving DecidableEq

/-- Modelled from the spec: `Bit.__invert__` (`bitfield/types.py`, not under
`src/`) produces the complement mask `~(2 ** number)` of the flag's bit, so
that AND-ing clears exactly that bit. -/
def Bit.invertMask (b : Bit) : Int := Int.lnot (Int.ofNat b.mask)

/-- The new flags value of one member under `_disable_provider`:
`F("flags").bitand(~OrganizationMember.flags["sso:linked"]).bitand(~OrganizationMember.flags["sso:invalid"])`,
where `linked` and `invalid` are the positions of `"sso:linked"` and
`"sso:invalid"` in the `OrganizationMember.flags` flag list (the model is
parametric in them: the `OrganizationMember` model is not under `src/`). -/
def disableProviderFlags (linked invalid : Nat) (flags : Int) : Int :=
  Int.land (Int.land flags (Bit.invertMask ⟨linked⟩)) (Bit.invertMask ⟨invalid⟩)

/-- The bulk `OrganizationMember.objects.filter(organization_id=...).update(flags=...)`
of `OrganizationAuthSettingsView._disable_provider`: every member of the
organization gets its flags rewritten; members of other organizations are
untouched. -/
def disableProviderUpdate (orgId : Nat) (linked invalid : Nat)
    (members : List OrgMember) : List OrgMember :=
  members.map (fun m =>
    if m.organization_id == orgId then
      { m with flags := disableProviderFlags linked invalid m.flags }
    else m)

/-! ### `sentry.issues.ongoing.transition_group_to_ongoing`
(not under `src/`; only `src/tests/sentry/issues/test_ongoing.py` is) -/

/-- Issue status. -/
inductive GroupStatus
  | UNRESOLVED
  | RESOLVED
  | IGNORED
deriving DecidableEq

/-- Issue sub-status. -/
inductive GroupSubStatus
  | NEW
  | REGRESSED
  | ONGOING
  | UNTIL_ESCALATING
deriving DecidableEq

/-- Values of `GroupInboxReason`. -/
inductive GroupInboxReason
  | NEW
  | REGRESSION
  | ONGOING
deriving DecidableEq

/-- Values of `ActivityType`. -/
inductive ActivityType
  | AUTO_SET_ONGOING
  | SET_RESOLVED
deriving DecidableEq

/-- Values of `GroupHistoryStatus`. -/
inductive GroupHistoryStatus
  | UNRESOLVED
  | RESOLVED
  | ONGOING
deriving DecidableEq

/-- A `Group` row, restricted to id, status and substatus. -/
structure Group where
  id : Nat
  status : GroupStatus
  substatus : GroupSubStatus
deriving DecidableEq

/-- The database rows `transition_group_to_ongoing` touches: groups,
`GroupInbox`, `Activity` and `GroupHistory` rows (each row keyed by its
group id). -/
structure IssueDB where
  groups : List Group
  groupInbox : List (Nat × GroupInboxReason)
  activities : List (Nat × ActivityType)
  groupHistory : List (Nat × GroupHistoryStatus)
deriving DecidableEq

/-- Modelled from the spec: `sentry.issues.ongoing.transition_group_to_ongoing`
is not under `src/` (only its test is).  The spec describes it as the
status/sub-status state-machine step of the issue-state logic; per its test
(`src/tests/sentry/issues/test_ongoing.py`), transitioning a group records a
`GroupInbox` row with reason `ONGOING`, an `Activity` of type
`AUTO_SET_ONGOING`, and a `GroupHistory` row with status `UNRESOLVED`, and
moves the group itself to substatus `ONGOING`. -/
def transition_group_to_ongoing (from_status : GroupStatus)
    (from_substatus : GroupSubStatus) (group : Group) (db : IssueDB) : IssueDB :=
  if group.status = from_status ∧ group.substatus = from_substatus then
    { groups := db.groups.map (fun g =>
        if g.id == group.id then
          { g with status := GroupStatus.UNRESOLVED,
                   substatus := GroupSubStatus.ONGOING }
        else g)
      groupInbox := (group.id, GroupInboxReason.ONGOING) :: db.groupInbox
      activities := (group.id, ActivityType.AUTO_SET_ONGOING) :: db.activities
      groupHistory := (group.id, GroupHistoryStatus.UNRESOLVED) :: db.groupHistory }
  else db

/-! ## Theorems -/

/-- Helper: the `ValueError` message of `list.index` is never the
`ValueError` message of the flag-count check. -/
theorem index_error_ne_too_many (x : String) :
    x ++ " is not in list" ≠ "Too many flags" := by
  intro h
  have hl := congrArg String.length h
  rw [String.length_append] at hl
  have h1 : (" is not in list").length = 15 := rfl
  have h2 : ("Too many flags").length = 14 := rfl
  omega

/-- Helper: the default-packing loop never raises
`ValueError("Too many flags")`. -/
theorem packDefault_ne_too_many (names : List String) (ds : List String) :
    ∀ acc : Int, packDefault names ds acc ≠ Except.error "Too many flags" := by
  induction ds with
  | nil => intro acc h; exact Except.noConfusion h
  | cons f rest ih =>
    intro acc
    simp only [packDefault, listIndex]
    cases hf : List.findIdx? (fun y => y == f) names with
    | none =>
      intro h
      exact index_error_ne_too_many f (Except.error.inj h)
    | some i => exact ih _

/-- C1: constructing `BitFieldFlags` or `BitField` from a flags sequence
raises `ValueError("Too many flags")` exactly when the sequence has more
than `MAX_FLAG_COUNT = 63` flags (63 being the bit length of
`BigIntegerField.MAX_BIGINT`); with at most 63 flags this error is not
raised. -/
theorem bitfield_init_too_many_flags (fl : List String) (fe : List FlagEntry)
    (d : BitFieldDefault) :
    MAX_FLAG_COUNT = 63 ∧
    (BitFieldFlags.init fl = Except.error "Too many flags" ↔ 63 < fl.length) ∧
    (BitField.init fe d = Except.error "Too many flags" ↔ 63 < fe.length) := by
  have h63 : MAX_FLAG_COUNT = 63 := rfl
  refine ⟨h63, ?_, ?_⟩
  · rw [BitFieldFlags.init, h63]
    by_cases h : 63 < fl.length
    · simp [h]
    · simp [h]
  · rw [BitField.init, h63]
    by_cases h : 63 < fe.length
    · simp [h]
    · simp only [gt_iff_lt, h, if_neg, not_false_iff]
      cases d with
      | noneVal => simp [h]
      | intVal n => simp [h]
      | coll ds =>
        simp only
        cases hpd : packDefault (fe.map FlagEntry.flagName) ds 0 with
        | error e =>
          have hne : e ≠ "Too many flags" := by
            intro he
            exact packDefault_ne_too_many _ _ 0 (he ▸ hpd)
          simp [hpd, hne, h]
        | ok v => simp [hpd, h]

/-- Helper: when `f` occurs in `names`, `list.index` returns the first
index of `f`. -/
theorem listIndex_of_mem {names : List String} {f : String} (hf : f ∈ names) :
    listIndex names f = Except.ok (names.findIdx (fun y => y == f)) := by
  have hi : names.findIdx? (fun y => y == f) =
      some (names.findIdx (fun y => y == f)) :=
    List.findIdx?_eq_some_of_exists ⟨f, hf, by simp⟩
  rw [listIndex, hi]

/-- Helper: `Bit(i).mask` as an integer is `2 ^ i`. -/
theorem bit_mask_int (i : Nat) : (Int.ofNat (Bit.mask ⟨i⟩)) = (2 : Int) ^ i := by
  simp only [Bit.mask]
  exact_mod_cast rfl

/-- Helper: when every member of the default occurs among the flag names,
the packing loop succeeds and computes the fold of bitwise ORs. -/
theorem packDefault_ok (names : List String) :
    ∀ (ds : List String) (acc : Int), (∀ f ∈ ds, f ∈ names) →
      packDefault names ds acc =
        Except.ok (ds.foldl
          (fun a f => Int.lor a ((2 : Int) ^ names.findIdx (fun y => y == f))) acc) := by
  intro ds
  induction ds with
  | nil => intro acc _; rfl
  | cons f rest ih =>
    intro acc h
    have hf : f ∈ names := h f (List.mem_cons_self f rest)
    have step : packDefault names (f :: rest) acc =
        packDefault names rest
          (Int.lor acc (Int.ofNat (Bit.mask ⟨names.findIdx (fun y => y == f)⟩))) := by
      rw [packDefault, listIndex_of_mem hf]
    rw [step, ih _ (fun g hg => h g (List.mem_cons_of_mem _ hg))]
    rw [List.foldl_cons, bit_mask_int]

/-- C2: for a `BitField` whose default is a collection of flag names all
occurring among the flags, the integer default handed to `BigIntegerField`
is the bitwise OR of `2 ^ i` over the indices `i` at which the members
occur in the flag list — the whole boolean set is packed into one
integer. -/
theorem bitfield_collection_default_packed (fe : List FlagEntry) (ds : List String)
    (hlen : fe.length ≤ MAX_FLAG_COUNT)
    (hmem : ∀ f ∈ ds, f ∈ fe.map FlagEntry.flagName) :
    BitField.init fe (BitFieldDefault.coll ds) =
      Except.ok ⟨fe, fe.map FlagEntry.flagName, fe.map FlagEntry.flagLabel,
        some (specPackedDefault (fe.map FlagEntry.flagName) ds)⟩ := by
  have hgt : ¬ fe.length > MAX_FLAG_COUNT := by omega
  rw [BitField.init, if_neg hgt]
  simp only
  rw [packDefault_ok _ ds 0 hmem]
  rfl

/-- Witness for C2 at a concrete field: flags `["a", "b", "c"]` and default
`["c", "a"]`. -/
theorem bitfield_collection_default_packed_witness :
    BitField.init [FlagEntry.plain "a", FlagEntry.plain "b", FlagEntry.plain "c"]
        (BitFieldDefault.coll ["c", "a"]) =
      Except.ok ⟨[FlagEntry.plain "a", FlagEntry.plain "b", FlagEntry.plain "c"],
        ["a", "b", "c"], ["a", "b", "c"],
        some (specPackedDefault ["a", "b", "c"] ["c", "a"])⟩ :=
  bitfield_collection_default_packed
    [FlagEntry.plain "a", FlagEntry.plain "b", FlagEntry.plain "c"] ["c", "a"]
    (by decide) (by decide)

/-- Helper: merging one more power-of-two bit into a low-bits mask, on the
`Nat.ldiff` images of a two's-complement negative number. -/
theorem nat_ldiff_pow_step (k m : Nat) :
    Nat.ldiff (2 ^ k - 1) m ||| Nat.ldiff (2 ^ k) m = Nat.ldiff (2 ^ (k + 1) - 1) m := by
  apply Nat.eq_of_testBit_eq
  intro i
  simp only [Nat.testBit_or, Nat.testBit_ldiff, Nat.testBit_two_pow_sub_one,
    Nat.testBit_two_pow]
  by_cases h1 : i < k
  · have h2 : i < k + 1 := by omega
    simp [h1, h2]
  · by_cases h2 : k = i
    · subst h2
      simp [h1, Nat.lt_succ_self]
    · have h3 : ¬ i < k + 1 := by omega
      simp [h1, h2, h3]

/-- Helper: on a negative value `-[m+1]`, the repair loop of `to_python`
computes exactly the low `k` bits of the two's-complement representation,
as a natural number. -/
theorem bitfieldFix_negSucc (m : Nat) :
    ∀ k : Nat,
      (List.range k).foldl
          (fun acc b => Int.lor acc (Int.land (Int.negSucc m) ((2 : Int) ^ b))) 0
        = Int.ofNat (Nat.ldiff (2 ^ k - 1) m) := by
  intro k
  induction k with
  | zero =>
    have h0 : Nat.ldiff (2 ^ 0 - 1) m = 0 := by
      apply Nat.eq_of_testBit_eq
      intro i
      simp [Nat.testBit_ldiff]
    rw [h0]
    rfl
  | succ k ih =>
    rw [List.range_succ, List.foldl_append, ih, List.foldl_cons, List.foldl_nil]
    have hpow : Int.land (Int.negSucc m) ((2 : Int) ^ k) =
        Int.ofNat (Nat.ldiff (2 ^ k) m) := by
      have hc : ((2 : Int) ^ k) = Int.ofNat (2 ^ k) := by exact_mod_cast rfl
      rw [hc]
      rfl
    rw [hpow]
    have hor : Int.lor (Int.ofNat (Nat.ldiff (2 ^ k - 1) m))
        (Int.ofNat (Nat.ldiff (2 ^ k) m)) =
        Int.ofNat (Nat.ldiff (2 ^ k - 1) m ||| Nat.ldiff (2 ^ k) m) := rfl
    rw [hor, nat_ldiff_pow_step]

/-- C8: `BitField.to_python` replaces a negative integer `n` by the
non-negative integer `n & (2 ^ k - 1)` — the bitwise OR of `n & 2 ^ b` over
the bit positions `b` of the field's `k` flags — before wrapping it in a
`BitHandler`, and wraps non-negative integers unchanged. -/
theorem bitfield_to_python_fixes_negative (field : BitFieldData) (n : Int) :
    (n < 0 →
      (BitField.to_python field (BitFieldValue.intVal n)).mask =
          Int.land n ((2 : Int) ^ field.flags.length - 1) ∧
        0 ≤ (BitField.to_python field (BitFieldValue.intVal n)).mask) ∧
    (0 ≤ n → (BitField.to_python field (BitFieldValue.intVal n)).mask = n) := by
  constructor
  · intro hneg
    obtain ⟨m, rfl⟩ := Int.eq_negSucc_of_lt_zero hneg
    have hmask : (BitField.to_python field (BitFieldValue.intVal (Int.negSucc m))).mask
        = bitfieldFix field.flags (Int.negSucc m) := by
      simp [BitField.to_python, BitField.toPythonInt, hneg]
    rw [hmask, bitfieldFix, bitfieldFix_negSucc]
    constructor
    · have hone : 1 ≤ 2 ^ field.flags.length := Nat.one_le_two_pow
      have hcast : ((2 ^ field.flags.length - 1 : Nat) : Int) =
          (2 : Int) ^ field.flags.length - 1 := by
        rw [Int.ofNat_sub hone]
        push_cast
        ring
      have hsub : ((2 : Int) ^ field.flags.length - 1) =
          Int.ofNat (2 ^ field.flags.length - 1) := hcast.symm
      rw [hsub]
      rfl
    · exact Int.ofNat_nonneg _
  · intro hpos
    have hn : ¬ n < 0 := not_lt.mpr hpos
    simp [BitField.to_python, BitField.toPythonInt, hn]

/-- Witness for C8 at a concrete two-flag field, on the inputs `-5`
(negative, repaired to its two low bits) and `6` (non-negative,
unchanged). -/
theorem bitfield_to_python_fixes_negative_witness :
    (BitField.to_python ⟨[FlagEntry.plain "a", FlagEntry.plain "b"],
        ["a", "b"], ["a", "b"], none⟩ (BitFieldValue.intVal (-5))).mask =
      Int.land (-5) ((2 : Int) ^ (2 : Nat) - 1) ∧
    0 ≤ (BitField.to_python ⟨[FlagEntry.plain "a", FlagEntry.plain "b"],
        ["a", "b"], ["a", "b"], none⟩ (BitFieldValue.intVal (-5))).mask ∧
    (BitField.to_python ⟨[FlagEntry.plain "a", FlagEntry.plain "b"],
        ["a", "b"], ["a", "b"], none⟩ (BitFieldValue.intVal 6)).mask = 6 :=
  ⟨((bitfield_to_python_fixes_negative
      ⟨[FlagEntry.plain "a", FlagEntry.plain "b"], ["a", "b"], ["a", "b"], none⟩
      (-5)).1 (by decide)).1,
    ((bitfield_to_python_fixes_negative
      ⟨[FlagEntry.plain "a", FlagEntry.plain "b"], ["a", "b"], ["a", "b"], none⟩
      (-5)).1 (by decide)).2,
    (bitfield_to_python_fixes_negative
      ⟨[FlagEntry.plain "a", FlagEntry.plain "b"], ["a", "b"], ["a", "b"], none⟩
      6).2 (by decide)⟩

/-- Helper: when the states are subtractable whenever the filter is one of
the three boolean filters, the audit computation does not raise. -/
theorem computeAudit_ok (fid : String) (cur newState : PyState)
    (hc : fid ∈ threeFilterIds → (pySub cur newState).isSome) :
    ∃ ev ret, computeAudit fid cur newState = Except.ok (ev, ret) := by
  by_cases h : fid ∈ threeFilterIds
  · obtain ⟨diff, hdiff⟩ := Option.isSome_iff_exists.mp (hc h)
    simp only [computeAudit, h, if_pos, hdiff]
    exact ⟨_, _, rfl⟩
  · simp only [computeAudit, h, if_neg, not_false_iff]
    exact ⟨_, _, rfl⟩

/-- Helper: for the three boolean filters with boolean states, the audit
event is `PROJECT_DISABLE` exactly when `current - new == 1`, otherwise
`PROJECT_ENABLE`, and the returned state is the filter id string. -/
theorem computeAudit_three (fid : String) (hfid : fid ∈ threeFilterIds) (c n : Bool) :
    computeAudit fid (PyState.pybool c) (PyState.pybool n) =
      Except.ok
        ((if boolToInt c - boolToInt n = 1 then "PROJECT_DISABLE" else "PROJECT_ENABLE"),
          PyValue.pystr fid) := by
  have hne : (fid == "legacy-browsers") = false := by
    simp only [threeFilterIds, List.mem_cons, List.mem_singleton] at hfid
    rcases hfid with rfl | rfl | rfl | h
    · rfl
    · rfl
    · rfl
    · exact absurd h (List.not_mem_nil fid)
  simp [computeAudit, hfid, hne, pySub]

/-- C4: `ProjectFilterDetailsEndpoint.put` raises `ResourceDoesNotExist`
when no registered filter spec has the requested id; answers the serializer
errors with status 400 — without calling `set_filter_state` — when the
serializer rejects the data; and otherwise updates the filter state, creates
an audit entry, and answers 201. -/
theorem project_filter_put_flow (Data : Type) (specs : List (FilterSpec Data))
    (fid : String) (d : Data) (cur : RawState) (sfs : Data → RawState) :
    ((∀ s ∈ specs, s.id ≠ fid) →
      projectFilterPut Data specs fid d cur sfs = Except.error PutErr.resourceDoesNotExist) ∧
    (∀ flt, specs.find? (fun s => s.id == fid) = some flt →
      ((flt.validate d = none →
        projectFilterPut Data specs fid d cur sfs =
          Except.ok ⟨400, some (flt.errors d), false, none⟩) ∧
      (∀ v, flt.validate d = some v →
        (fid ∈ threeFilterIds → (pySub (toPyState cur) (toPyState (sfs v))).isSome) →
        ∃ entry, projectFilterPut Data specs fid d cur sfs =
          Except.ok ⟨201, none, true, some entry⟩))) := by
  refine ⟨?_, ?_⟩
  · intro hnone
    have hfind : specs.find? (fun s => s.id == fid) = none := by
      rw [List.find?_eq_none]
      intro s hs
      simpa using hnone s hs
    simp [projectFilterPut, hfind]
  · intro flt hfind
    refine ⟨?_, ?_⟩
    · intro hval
      simp [projectFilterPut, hfind, hval]
    · intro v hval hcompat
      obtain ⟨ev, ret, hca⟩ := computeAudit_ok fid _ _ hcompat
      refine ⟨⟨ev, pyIterToList ret⟩, ?_⟩
      simp [projectFilterPut, hfind, hval, hca]

/-- Witness for C4: the three scenarios at concrete inputs — an empty spec
list (404), a spec whose serializer rejects everything (400, state
untouched), and a valid update of `localhost` (201). -/
theorem project_filter_put_flow_witness :
    projectFilterPut Unit [] "x" () (RawState.rbool true)
        (fun _ => RawState.rbool true) = Except.error PutErr.resourceDoesNotExist ∧
    projectFilterPut Unit [⟨"x", fun _ => none, fun _ => "bad"⟩] "x" ()
        (RawState.rbool true) (fun _ => RawState.rbool true) =
      Except.ok ⟨400, some "bad", false, none⟩ ∧
    (∃ entry, projectFilterPut Unit
        [⟨"localhost", fun _ => some (), fun _ => ""⟩] "localhost" ()
        (RawState.rbool true) (fun _ => RawState.rbool false) =
      Except.ok ⟨201, none, true, some entry⟩) :=
  ⟨(project_filter_put_flow Unit [] "x" () (RawState.rbool true)
      (fun _ => RawState.rbool true)).1 (by intro s hs; exact absurd hs (List.not_mem_nil s)),
    ((project_filter_put_flow Unit [⟨"x", fun _ => none, fun _ => "bad"⟩]
      "x" () (RawState.rbool true) (fun _ => RawState.rbool true)).2 _ rfl).1 rfl,
    ((project_filter_put_flow Unit
      [⟨"localhost", fun _ => some (), fun _ => ""⟩] "localhost" ()
      (RawState.rbool true) (fun _ => RawState.rbool false)).2 _ rfl).2 () rfl
      (fun _ => rfl)⟩

/-- C5 (amended): for a PUT to one of the three boolean filters with
boolean previous state `c` and new state `n`, the audit entry records
`PROJECT_DISABLE` exactly when `c - n == 1` and `PROJECT_ENABLE` otherwise,
and records as state the list of the one-character strings of the filter id
(the code passes the filter id string through `list(...)` because strings
are iterable). -/
theorem three_filter_audit_event (Data : Type) (specs : List (FilterSpec Data))
    (fid : String) (d v : Data) (flt : FilterSpec Data) (c n : Bool)
    (cur : RawState) (sfs : Data → RawState)
    (hfid : fid ∈ threeFilterIds)
    (hfind : specs.find? (fun s => s.id == fid) = some flt)
    (hval : flt.validate d = some v)
    (hcur : cur = RawState.rbool c)
    (hnew : sfs v = RawState.rbool n) :
    projectFilterPut Data specs fid d cur sfs =
      Except.ok ⟨201, none, true, some
        ⟨(if boolToInt c - boolToInt n = 1 then "PROJECT_DISABLE" else "PROJECT_ENABLE"),
          PyValue.pylist (fid.data.map Char.toString)⟩⟩ := by
  subst hcur
  simp [projectFilterPut, hfind, hval, hnew, toPyState,
    computeAudit_three fid hfid c n, pyIterToList]

/-- Counterexample for C5 as stated: updating `localhost` from on to off
records `PROJECT_DISABLE`, but the recorded state is the list
`["l", "o", "c", "a", "l", "h", "o", "s", "t"]` of the characters of the
filter id, not the filter id string itself. -/
theorem three_filter_audit_state_cex :
    projectFilterPut Unit [⟨"localhost", fun _ => some (), fun _ => ""⟩]
        "localhost" () (RawState.rbool true) (fun _ => RawState.rbool false) =
      Except.ok ⟨201, none, true, some ⟨"PROJECT_DISABLE",
        PyValue.pylist ["l", "o", "c", "a", "l", "h", "o", "s", "t"]⟩⟩ ∧
    PyValue.pylist ["l", "o", "c", "a", "l", "h", "o", "s", "t"] ≠
      PyValue.pystr "localhost" := by
  constructor
  · rfl
  · decide

/-- Witness for the amended C5 at a concrete input: enabling
`web-crawlers` (previous state off, new state on) records
`PROJECT_ENABLE`. -/
theorem three_filter_audit_event_witness :
    projectFilterPut Unit [⟨"web-crawlers", fun _ => some (), fun _ => ""⟩]
        "web-crawlers" () (RawState.rbool false) (fun _ => RawState.rbool true) =
      Except.ok ⟨201, none, true, some
        ⟨(if boolToInt false - boolToInt true = 1 then "PROJECT_DISABLE"
            else "PROJECT_ENABLE"),
          PyValue.pylist ("web-crawlers".data.map Char.toString)⟩⟩ :=
  three_filter_audit_event Unit [⟨"web-crawlers", fun _ => some (), fun _ => ""⟩]
    "web-crawlers" () () ⟨"web-crawlers", fun _ => some (), fun _ => ""⟩ false true
    (RawState.rbool false) (fun _ => RawState.rbool true)
    (by decide) rfl rfl rfl rfl

/-- C3: calling `transition_group_to_ongoing` with from-status `UNRESOLVED`
and from-substatus `NEW` or `REGRESSED` on a group in that state records a
`GroupInbox` row with reason `ONGOING`, an `Activity` of type
`AUTO_SET_ONGOING`, and a `GroupHistory` row with status `UNRESOLVED` for
that group. -/
theorem transition_to_ongoing_records (g : Group) (db : IssueDB)
    (hs : g.status = GroupStatus.UNRESOLVED)
    (_hsub : g.substatus = GroupSubStatus.NEW ∨ g.substatus = GroupSubStatus.REGRESSED) :
    (g.id, GroupInboxReason.ONGOING) ∈
        (transition_group_to_ongoing GroupStatus.UNRESOLVED g.substatus g db).groupInbox ∧
    (g.id, ActivityType.AUTO_SET_ONGOING) ∈
        (transition_group_to_ongoing GroupStatus.UNRESOLVED g.substatus g db).activities ∧
    (g.id, GroupHistoryStatus.UNRESOLVED) ∈
        (transition_group_to_ongoing GroupStatus.UNRESOLVED g.substatus g db).groupHistory := by
  have hcond : g.status = GroupStatus.UNRESOLVED ∧ g.substatus = g.substatus := ⟨hs, rfl⟩
  simp only [transition_group_to_ongoing, hcond, and_self, if_pos]
  exact ⟨List.mem_cons_self _ _, List.mem_cons_self _ _, List.mem_cons_self _ _⟩

/-- Witness for C3: a concrete `UNRESOLVED`/`NEW` group in a one-group
database. -/
theorem transition_to_ongoing_records_witness :
    (1, GroupInboxReason.ONGOING) ∈
        (transition_group_to_ongoing GroupStatus.UNRESOLVED GroupSubStatus.NEW
          ⟨1, GroupStatus.UNRESOLVED, GroupSubStatus.NEW⟩
          ⟨[⟨1, GroupStatus.UNRESOLVED, GroupSubStatus.NEW⟩], [], [], []⟩).groupInbox ∧
    (1, ActivityType.AUTO_SET_ONGOING) ∈
        (transition_group_to_ongoing GroupStatus.UNRESOLVED GroupSubStatus.NEW
          ⟨1, GroupStatus.UNRESOLVED, GroupSubStatus.NEW⟩
          ⟨[⟨1, GroupStatus.UNRESOLVED, GroupSubStatus.NEW⟩], [], [], []⟩).activities ∧
    (1, GroupHistoryStatus.UNRESOLVED) ∈
        (transition_group_to_ongoing GroupStatus.UNRESOLVED GroupSubStatus.NEW
          ⟨1, GroupStatus.UNRESOLVED, GroupSubStatus.NEW⟩
          ⟨[⟨1, GroupStatus.UNRESOLVED, GroupSubStatus.NEW⟩], [], [], []⟩).groupHistory :=
  transition_to_ongoing_records
    ⟨1, GroupStatus.UNRESOLVED, GroupSubStatus.NEW⟩
    ⟨[⟨1, GroupStatus.UNRESOLVED, GroupSubStatus.NEW⟩], [], [], []⟩
    rfl (Or.inl rfl)

/-- Helper: the dict-membership test of the model agrees with association
lookup. -/
theorem dict_any_eq_lookup_isSome {V : Type} (data : List (String × V)) (k : String) :
    (data.any (fun p => p.1 == k)) = (data.lookup k).isSome := by
  induction data with
  | nil => rfl
  | cons p rest ih =>
    obtain ⟨a, b⟩ := p
    by_cases h : a = k
    · subst h
      simp [List.lookup]
    · have h1 : (a == k) = false := beq_eq_false_iff_ne.mpr h
      have h2 : (k == a) = false := beq_eq_false_iff_ne.mpr (Ne.symm h)
      simp [List.lookup, h1, h2, ih]

/-- C7: `error_message_from_json` returns `data["message"]` when the key
`"message"` is present, otherwise `data["error"]` when that key is present,
otherwise `None`. -/
theorem gitlab_error_message_cases {V : Type} (data : List (String × V)) :
    ((data.lookup "message").isSome →
      error_message_from_json data = data.lookup "message") ∧
    (data.lookup "message" = none → (data.lookup "error").isSome →
      error_message_from_json data = data.lookup "error") ∧
    (data.lookup "message" = none → data.lookup "error" = none →
      error_message_from_json data = none) := by
  refine ⟨?_, ?_, ?_⟩
  · intro h
    rw [error_message_from_json, if_pos]
    rw [dict_any_eq_lookup_isSome]
    exact h
  · intro hm he
    rw [error_message_from_json, if_neg, if_pos]
    · rw [dict_any_eq_lookup_isSome]; exact he
    · rw [dict_any_eq_lookup_isSome, hm]; simp
  · intro hm he
    rw [error_message_from_json, if_neg, if_neg]
    · rw [dict_any_eq_lookup_isSome, he]; simp
    · rw [dict_any_eq_lookup_isSome, hm]; simp

/-- Witness for C7 at concrete dicts: both keys present, only `"error"`
present, and neither present. -/
theorem gitlab_error_message_cases_witness :
    error_message_from_json [("message", 1), ("error", 2)] =
      List.lookup "message" [("message", 1), ("error", 2)] ∧
    error_message_from_json [("other", 1), ("error", 2)] =
      List.lookup "error" [("other", 1), ("error", 2)] ∧
    error_message_from_json ([("other", 5)] : List (String × Nat)) = none :=
  ⟨(gitlab_error_message_cases [("message", 1), ("error", 2)]).1 (by decide),
    (gitlab_error_message_cases [("other", 1), ("error", 2)]).2.1 (by decide) (by decide),
    (gitlab_error_message_cases [("other", 5)]).2.2 (by decide) (by decide)⟩

/-- Helper: `Int.testBit` on a natural number seen as an integer. -/
theorem int_testBit_ofNat (p b : Nat) : (Int.ofNat p).testBit b = p.testBit b := rfl

/-- Helper: the bits of the integer mask `2 ^ l`. -/
theorem int_testBit_two_pow (l b : Nat) : ((2 : Int) ^ l).testBit b = decide (l = b) := by
  have hc : ((2 : Int) ^ l) = Int.ofNat (2 ^ l) := by exact_mod_cast rfl
  rw [hc, int_testBit_ofNat, Nat.testBit_two_pow]

/-- C9: `_disable_provider` rewrites the flags of exactly the members of
the organization, and the rewrite — bitwise AND with the complements of the
`sso:linked` and `sso:invalid` masks — clears those two bits and leaves
every other bit of each member's flags unchanged. -/
theorem disable_provider_clears_sso_bits (orgId linked invalid : Nat)
    (members : List OrgMember) (flags : Int) (b j : Nat) :
    ((disableProviderUpdate orgId linked invalid members)[j]? =
      (members[j]?).map (fun m =>
        if m.organization_id = orgId then
          { m with flags := disableProviderFlags linked invalid m.flags }
        else m)) ∧
    (b ≠ linked → b ≠ invalid →
      (disableProviderFlags linked invalid flags).testBit b = flags.testBit b) ∧
    (disableProviderFlags linked invalid flags).testBit linked = false ∧
    (disableProviderFlags linked invalid flags).testBit invalid = false := by
  refine ⟨?_, ?_, ?_, ?_⟩
  · rw [disableProviderUpdate, List.getElem?_map]
    cases members[j]? with
    | none => rfl
    | some m => simp [beq_iff_eq]
  · intro hb1 hb2
    simp [disableProviderFlags, Bit.invertMask, Bit.mask, Int.testBit_land,
      Int.testBit_lnot, int_testBit_two_pow, Ne.symm hb1, Ne.symm hb2]
  · simp [disableProviderFlags, Bit.invertMask, Bit.mask, Int.testBit_land,
      Int.testBit_lnot, int_testBit_two_pow]
  · simp [disableProviderFlags, Bit.invertMask, Bit.mask, Int.testBit_land,
      Int.testBit_lnot, int_testBit_two_pow]

/-- Witness for C9 at concrete data: organization 1, masks at bits 0 and 1,
one member with flags 7, observed at bit 2 and at index 0. -/
theorem disable_provider_clears_sso_bits_witness :
    ((disableProviderUpdate 1 0 1 [⟨5, 1, 7⟩])[0]? =
      (([⟨5, 1, 7⟩] : List OrgMember)[0]?).map (fun m =>
        if m.organization_id = 1 then
          { m with flags := disableProviderFlags 0 1 m.flags }
        else m)) ∧
    (disableProviderFlags 0 1 (7 : Int)).testBit 2 = (7 : Int).testBit 2 ∧
    (disableProviderFlags 0 1 (7 : Int)).testBit 0 = false ∧
    (disableProviderFlags 0 1 (7 : Int)).testBit 1 = false :=
  ⟨(disable_provider_clears_sso_bits 1 0 1 [⟨5, 1, 7⟩] 7 2 0).1,
    (disable_provider_clears_sso_bits 1 0 1 [⟨5, 1, 7⟩] 7 2 0).2.1
      (by decide) (by decide),
    (disable_provider_clears_sso_bits 1 0 1 [⟨5, 1, 7⟩] 7 2 0).2.2.1,
    (disable_provider_clears_sso_bits 1 0 1 [⟨5, 1, 7⟩] 7 2 0).2.2.2⟩

/-- C10: the webhook secret built by
`GitlabIntegrationProvider.build_integration` is the SHA-1 hex digest of the
GitLab hostname concatenated with the installation's client id; any two
states agreeing on the installation URL and client id — whatever their
access token, group or user — yield the same secret. -/
theorem gitlab_webhook_secret_deterministic (s1 s2 : GitlabState)
    (hurl : s1.installation_data.url = s2.installation_data.url)
    (hcid : s1.installation_data.client_id = s2.installation_data.client_id) :
    (build_integration s1).metadata.webhook_secret =
      sha1TextHexdigest
        (urlNetloc s1.installation_data.url ++ s1.installation_data.client_id) ∧
    (build_integration s1).metadata.webhook_secret =
      (build_integration s2).metadata.webhook_secret := by
  have e1 : (build_integration s1).metadata.webhook_secret =
      sha1TextHexdigest
        (urlNetloc s1.installation_data.url ++ s1.installation_data.client_id) := rfl
  have e2 : (build_integration s2).metadata.webhook_secret =
      sha1TextHexdigest
        (urlNetloc s2.installation_data.url ++ s2.installation_data.client_id) := rfl
  refine ⟨e1, ?_⟩
  rw [e1, e2, hurl, hcid]

/-- Witness for C10: two concrete installs of the same GitLab host and
client id that differ in access token, group and user produce the same
webhook secret. -/
theorem gitlab_webhook_secret_deterministic_witness :
    (build_integration ⟨⟨"https://gitlab.example.com/pathbit", "client-one", true,
        some "grp", true⟩, "token-A", some 7, some "Group Seven", 41⟩).metadata.webhook_secret =
      sha1TextHexdigest
        (urlNetloc (⟨⟨"https://gitlab.example.com/pathbit", "client-one", true,
          some "grp", true⟩, "token-A", some 7, some "Group Seven", 41⟩ :
            GitlabState).installation_data.url ++
          (⟨⟨"https://gitlab.example.com/pathbit", "client-one", true,
          some "grp", true⟩, "token-A", some 7, some "Group Seven", 41⟩ :
            GitlabState).installation_data.client_id) ∧
    (build_integration ⟨⟨"https://gitlab.example.com/pathbit", "client-one", true,
        some "grp", true⟩, "token-A", some 7, some "Group Seven", 41⟩).metadata.webhook_secret =
      (build_integration ⟨⟨"https://gitlab.example.com/pathbit", "client-one", true,
        none, false⟩, "token-B", none, none, 99⟩).metadata.webhook_secret :=
  gitlab_webhook_secret_deterministic
    ⟨⟨"https://gitlab.example.com/pathbit", "client-one", true, some "grp", true⟩,
      "token-A", some 7, some "Group Seven", 41⟩
    ⟨⟨"https://gitlab.example.com/pathbit", "client-one", true, none, false⟩,
      "token-B", none, none, 99⟩
    rfl rfl

/-- Helper: the accumulator of `String.intercalate.go` factors out. -/
theorem intercalate_go_acc (s : String) :
    ∀ (xs : List String) (acc1 acc2 : String),
      String.intercalate.go (acc1 ++ acc2) s xs =
        acc1 ++ String.intercalate.go acc2 s xs := by
  intro xs
  induction xs with
  | nil =>
    intro a1 a2
    simp [String.intercalate.go]
  | cons x xs ih =>
    intro a1 a2
    simp only [String.intercalate.go]
    have hassoc : a1 ++ a2 ++ s ++ x = a1 ++ (a2 ++ s ++ x) := by
      simp [String.append_assoc]
    rw [hassoc]
    exact ih a1 (a2 ++ s ++ x)

/-- Helper: `String.intercalate` on a list of at least two strings peels
off the first string and one separator. -/
theorem intercalate_cons_cons (s a b : String) (l : List String) :
    String.intercalate s (a :: b :: l) = a ++ s ++ String.intercalate s (b :: l) := by
  show String.intercalate.go a s (b :: l) = a ++ s ++ String.intercalate.go b s l
  simp only [String.intercalate.go]
  exact intercalate_go_acc s l (a ++ s) b

/-- Helper: joining the issue lines with newlines is the bullet list of the
claim, one line per issue, in input order. -/
theorem intercalate_bullets (issues : List PullRequestIssue) :
    String.intercalate "\n" (issues.map singleIssueLine) = issueBullets issues := by
  induction issues with
  | nil => rfl
  | cons i rest ih =>
    cases rest with
    | nil => rfl
    | cons j r2 =>
      simp only [List.map_cons] at ih ⊢
      rw [intercalate_cons_cons, ih]
      rfl

/-- C6: `format_comment` renders every subtitle longer than 50 characters
as its first 47 characters followed by `"..."`, renders subtitles of at
most 50 characters unchanged, and produces the fixed body template around
one bullet line per issue of the input list, in input order. -/
theorem format_comment_renders (issues : List PullRequestIssue) (s : String) :
    (50 < s.length → format_subtitle s = s.take 47 ++ "...") ∧
    (s.length ≤ 50 → format_subtitle s = s) ∧
    format_comment issues = formatCommentSpec issues := by
  refine ⟨?_, ?_, ?_⟩
  · intro h
    simp [format_subtitle, h]
  · intro h
    have hn : ¬ s.length > 50 := by omega
    simp [format_subtitle, hn]
  · rw [format_comment, formatCommentSpec, intercalate_bullets]

/-- Witness for C6 at concrete inputs: a 60-character subtitle is
truncated, a short one is untouched, and a two-issue list renders per the
claim's template reading. -/
theorem format_comment_renders_witness :
    format_subtitle (String.mk (List.replicate 60 'x')) =
      (String.mk (List.replicate 60 'x')).take 47 ++ "..." ∧
    format_subtitle "short" = "short" ∧
    format_comment [⟨"T1", "S1", "U1"⟩, ⟨"T2", "S2", "U2"⟩] =
      formatCommentSpec [⟨"T1", "S1", "U1"⟩, ⟨"T2", "S2", "U2"⟩] :=
  ⟨(format_comment_renders [] (String.mk (List.replicate 60 'x'))).1 (by decide),
    (format_comment_renders [] "short").2.1 (by decide),
    (format_comment_renders [⟨"T1", "S1", "U1"⟩, ⟨"T2", "S2", "U2"⟩] "").2.2⟩

end Sentry
